import Mathlib

/-!
Verification of the pull-request aggregation script.

The script (class `PullRequestsData`) fetches pull-request metadata from a
REST endpoint, enriches each pull request with its commits, comments and
requested reviewers, and exports the result as CSV rows or a printed report.

The embedding below models:
  * JSON values (`Json`) as returned by the endpoint;
  * the HTTP boundary as a pure map `World` from URLs to responses; every
    operation additionally returns the ordered trace of URLs it fetched;
  * Python exceptions (`ApiError`, `KeyError`, `TypeError`, `ValueError`)
    as an `Except Err` result;
  * `datetime` values as proleptic-Gregorian calendar records, with
    subtraction performed on absolute seconds (`toSeconds`);
  * `datetime.strptime(s, "%Y-%m-%dT%H:%M:%SZ")` as `parse_datetime`.
-/

namespace Script

/-- JSON values decoded from an API response body. -/
inductive Json where
  | null : Json
  | bool : Bool → Json
  | str : String → Json
  | num : Int → Json
  | arr : List Json → Json
  | obj : List (String × Json) → Json

/-- Exceptions the script can raise: `ApiError` (raised by `make_request`
with its fixed message), `KeyError` (missing dictionary key), `TypeError`
(value of the wrong shape), `ValueError` (raised by `strptime`). -/
inductive Err where
  | apiError (msg : String)
  | keyError
  | typeError
  | valueError
deriving DecidableEq

/-- First-match lookup in a JSON object's field list (Python dict access). -/
def lookupField : List (String × Json) → String → Option Json
  | [], _ => none
  | (k, v) :: rest, key => if k = key then some v else lookupField rest key

/-- `j[k]` on a JSON value: defined only on objects. -/
def Json.get : Json → String → Option Json
  | .obj fields, key => lookupField fields key
  | _, _ => none

/-- Python `d[k]`: raises `KeyError` when the key is absent. -/
def getKey (j : Json) (k : String) : Except Err Json :=
  match j.get k with
  | some v => Except.ok v
  | none => Except.error Err.keyError

/-- Extract a Python `str`; anything else is a `TypeError`. -/
def asStr (j : Json) : Except Err String :=
  match j with
  | .str s => Except.ok s
  | _ => Except.error Err.typeError

/-- Iterate a JSON value as a list; anything else is a `TypeError`. -/
def elems (j : Json) : Except Err (List Json) :=
  match j with
  | .arr xs => Except.ok xs
  | _ => Except.error Err.typeError

/-- An HTTP response: status code and decoded JSON body. -/
structure HttpResponse where
  status_code : Nat
  body : Json

/-- The external HTTP boundary: a fixed map from URLs to responses
(`requests.get`). -/
abbrev World := String → HttpResponse

/-- `PullRequestsData.make_request`: GET the URL; raise `ApiError` with the
fixed message whenever the status code is not 200, otherwise return the
decoded JSON body. The second component is the trace of URLs fetched. -/
def make_request (world : World) (url : String) : Except Err (Json × List String) :=
  let response := world url
  if response.status_code ≠ 200 then
    Except.error (Err.apiError "Error receiving a response from the API")
  else
    Except.ok (response.body, [url])

/-- A `datetime.datetime` value (whole seconds; the script only ever builds
datetimes from second-precision timestamps). -/
structure DateTime where
  year : Nat
  month : Nat
  day : Nat
  hour : Nat
  minute : Nat
  second : Nat
deriving DecidableEq

/-- Gregorian leap-year test. -/
def isLeapYear (y : Nat) : Bool :=
  y % 4 = 0 && (y % 100 ≠ 0 || y % 400 = 0)

/-- Days in a month of the proleptic Gregorian calendar. -/
def daysInMonth (y m : Nat) : Nat :=
  if m = 2 then (if isLeapYear y then 29 else 28)
  else if m = 4 || m = 6 || m = 9 || m = 11 then 30
  else 31

/-- Days from civil date to the Unix epoch (proleptic Gregorian calendar,
days-from-civil algorithm), matching `datetime.date.toordinal` up to the
epoch offset. -/
def daysFromCivil (y m d : Int) : Int :=
  let yy := if m ≤ 2 then y - 1 else y
  let era := (if 0 ≤ yy then yy else yy - 399) / 400
  let yoe := yy - era * 400
  let mp := (m + 9) % 12
  let doy := (153 * mp + 2) / 5 + d - 1
  let doe := yoe * 365 + yoe / 4 - yoe / 100 + doy
  era * 146097 + doe - 719468

/-- Absolute time of a `datetime` in seconds since the Unix epoch; Python
datetime subtraction is the difference of these absolute times. -/
def toSeconds (t : DateTime) : Int :=
  daysFromCivil (t.year : Int) (t.month : Int) (t.day : Int) * 86400
    + (t.hour : Int) * 3600 + (t.minute : Int) * 60 + (t.second : Int)

/-- `PullRequestsData.get_time_open`: `datetime.datetime.now() - created_at`.
The current wall-clock time is an explicit parameter of the model; the
result is the difference in seconds (a `timedelta` is an exact quantity of
seconds at this precision). -/
def get_time_open (now created_at : DateTime) : Int :=
  toSeconds now - toSeconds created_at

/-- Numeric value of a decimal digit character. -/
def digitVal (c : Char) : Nat := c.toNat - 48

/-- ASCII decimal digit test (the digit class of the format's regular
expression; the embedding's character model is ASCII digits). -/
def isDig (c : Char) : Bool :=
  48 ≤ c.toNat && c.toNat ≤ 57

/-- The spec's strict reading of the documented timestamp format: the exact
20-character zero-padded shape `YYYY-MM-DDTHH:MM:SSZ` decomposed into its
six numeric fields. Returns `none` for any other shape. This is the
spec-side definition used by `matchesTimestampFormat`; the program's own
parser is `strptimeRead` below. -/
def readTimestamp (s : String) : Option (Nat × Nat × Nat × Nat × Nat × Nat) :=
  match s.toList with
  | [y1, y2, y3, y4, c1, m1, m2, c2, d1, d2, c3, h1, h2, c4, n1, n2, c5, s1, s2, c6] =>
    if isDig y1 && isDig y2 && isDig y3 && isDig y4 &&
       isDig m1 && isDig m2 && isDig d1 && isDig d2 &&
       isDig h1 && isDig h2 && isDig n1 && isDig n2 &&
       isDig s1 && isDig s2 &&
       c1 = '-' && c2 = '-' && c3 = 'T' && c4 = ':' && c5 = ':' && c6 = 'Z' then
      some (1000 * digitVal y1 + 100 * digitVal y2 + 10 * digitVal y3 + digitVal y4,
            10 * digitVal m1 + digitVal m2,
            10 * digitVal d1 + digitVal d2,
            10 * digitVal h1 + digitVal h2,
            10 * digitVal n1 + digitVal n2,
            10 * digitVal s1 + digitVal s2)
    else none
  | _ => none

/-- Calendar validity of the six timestamp fields as the spec describes a
valid `YYYY-MM-DDTHH:MM:SSZ` value (spec-side companion of
`readTimestamp`). -/
def validTimestampFields : Nat × Nat × Nat × Nat × Nat × Nat → Bool
  | (y, mo, d, h, mi, s) =>
    decide (1 ≤ mo) && decide (mo ≤ 12) && decide (1 ≤ d) &&
    decide (d ≤ daysInMonth y mo) && decide (h ≤ 23) && decide (mi ≤ 59) && decide (s ≤ 59)

/-- The spec's fixed timestamp format `YYYY-MM-DDTHH:MM:SSZ` (zero-padded
shape, trailing literal `Z`, no offset handling), as a predicate on
strings: the fixed textual shape together with calendar-valid field
ranges. -/
def matchesTimestampFormat (s : String) : Bool :=
  match readTimestamp s with
  | some f => validTimestampFields f
  | none => false

/-- The longest ASCII-digit prefix of a character list, paired with the
rest of the list. -/
def takeDigits : List Char → List Char × List Char
  | [] => ([], [])
  | c :: cs =>
    if isDig c then
      let p := takeDigits cs
      (c :: p.1, p.2)
    else ([], c :: cs)

/-- Numeric value of a matched digit run (`int()` applied to the group). -/
def natOfDigits (ds : List Char) : Nat :=
  ds.foldl (fun a c => 10 * a + digitVal c) 0

/-- `%Y` matches exactly four digits. -/
def yearTokenOk (ds : List Char) : Bool :=
  ds.length = 4

/-- `%m` matches `1[0-2]`, `0[1-9]` or a single `[1-9]`: one digit with
value 1-9, or two digits with value 01-12. -/
def monthTokenOk (ds : List Char) : Bool :=
  (ds.length = 1 && 1 ≤ natOfDigits ds)
  || (ds.length = 2 && 1 ≤ natOfDigits ds && natOfDigits ds ≤ 12)

/-- `%d` matches `3[01]`, `[12]\d`, `0[1-9]` or a single `[1-9]`: one digit
with value 1-9, or two digits with value 01-31. -/
def dayTokenOk (ds : List Char) : Bool :=
  (ds.length = 1 && 1 ≤ natOfDigits ds)
  || (ds.length = 2 && 1 ≤ natOfDigits ds && natOfDigits ds ≤ 31)

/-- `%H` matches `2[0-3]`, `[0-1]\d` or a single `\d`: one digit, or two
digits with value 00-23. -/
def hourTokenOk (ds : List Char) : Bool :=
  ds.length = 1 || (ds.length = 2 && natOfDigits ds ≤ 23)

/-- `%M` matches `[0-5]\d` or a single `\d`: one digit, or two digits with
value 00-59. -/
def minuteTokenOk (ds : List Char) : Bool :=
  ds.length = 1 || (ds.length = 2 && natOfDigits ds ≤ 59)

/-- `%S` matches `6[0-1]`, `[0-5]\d` or a single `\d`: one digit, or two
digits with value 00-61 (leap seconds pass the match and are rejected by
the `datetime` constructor). -/
def secondTokenOk (ds : List Char) : Bool :=
  ds.length = 1 || (ds.length = 2 && natOfDigits ds ≤ 61)

/-- The regular-expression matching pass of
`strptime(s, "%Y-%m-%dT%H:%M:%SZ")`: each digit directive consumes the
entire digit run before its following literal separator (so a run of one or
two digits subject to the directive's value range, and exactly four for
`%Y`), the format is anchored at both ends, and the literals `T` and `Z`
also match `t` and `z` because strptime compiles its pattern with
IGNORECASE. -/
def strptimeRead (s : String) : Option (Nat × Nat × Nat × Nat × Nat × Nat) :=
  match takeDigits s.toList with
  | (yds, '-' :: r1) =>
    match takeDigits r1 with
    | (mds, '-' :: r2) =>
      match takeDigits r2 with
      | (dds, tc :: r3) =>
        if tc = 'T' || tc = 't' then
          match takeDigits r3 with
          | (hds, ':' :: r4) =>
            match takeDigits r4 with
            | (nds, ':' :: r5) =>
              match takeDigits r5 with
              | (sds, [zc]) =>
                if (zc = 'Z' || zc = 'z') && yearTokenOk yds && monthTokenOk mds
                    && dayTokenOk dds && hourTokenOk hds && minuteTokenOk nds
                    && secondTokenOk sds then
                  some (natOfDigits yds, natOfDigits mds, natOfDigits dds,
                        natOfDigits hds, natOfDigits nds, natOfDigits sds)
                else none
              | _ => none
            | _ => none
          | _ => none
        else none
      | _ => none
    | _ => none
  | _ => none

/-- The validation the `datetime` constructor applies to the matched
fields: `MINYEAR ≤ year ≤ MAXYEAR`, month 1-12, day within the month,
hour 0-23, minute and second 0-59. -/
def datetimeCtorOk : Nat × Nat × Nat × Nat × Nat × Nat → Bool
  | (y, mo, d, h, mi, s) =>
    decide (1 ≤ y) && decide (y ≤ 9999) && decide (1 ≤ mo) && decide (mo ≤ 12) &&
    decide (1 ≤ d) && decide (d ≤ daysInMonth y mo) && decide (h ≤ 23) &&
    decide (mi ≤ 59) && decide (s ≤ 59)

/-- `datetime.datetime.strptime(s, "%Y-%m-%dT%H:%M:%SZ")`: the format's
regular-expression match (`strptimeRead`) followed by the `datetime`
constructor's range validation; any failure of either raises `ValueError`
(modelled as `none`). -/
def parse_datetime (s : String) : Option DateTime :=
  match strptimeRead s with
  | some f =>
    if datetimeCtorOk f then
      some ⟨f.1, f.2.1, f.2.2.1, f.2.2.2.1, f.2.2.2.2.1, f.2.2.2.2.2⟩
    else none
  | none => none

/-- One entry of `list_commits`' result: the tuple
`(commit["sha"], commit_data["commit"]["message"],
commit_data["commit"]["committer"]["name"])`. -/
structure CommitRecord where
  sha : Json
  message : Json
  committer_name : Json

/-- One entry of `list_comments`' result: the tuple
`(comment["user"]["login"], comment["body"])`. -/
structure CommentRecord where
  author_login : Json
  body : Json

/-- One entry of the requested-reviewers projection: the dict
`{"login": ..., "id": ..., "type": ...}` built by `list_pull_requests`. -/
structure ReviewerRecord where
  login : Json
  id : Json
  type : Json

/-- One entry of `list_pull_requests`' result: the 9-tuple appended for each
upstream pull-request object. -/
structure PullRequestRecord where
  number : Json
  title : Json
  author : Json
  created_at : Json
  updated_at : Json
  time_open : Int
  commits : List CommitRecord
  comments : List CommentRecord
  reviewers : List ReviewerRecord

/-- Body of the `for commit in data` loop of `list_commits` for a single
entry: read `commit["url"]`, fetch it, and build the commit tuple from
`commit["sha"]` and the fetched `commit_data`. -/
def commit_entry (world : World) (c : Json) : Except Err (CommitRecord × List String) := do
  let commit_url ← getKey c "url"
  let commit_url_s ← asStr commit_url
  let (commit_data, tr) ← make_request world commit_url_s
  let sha ← getKey c "sha"
  let commitObj ← getKey commit_data "commit"
  let message ← getKey commitObj "message"
  let committer ← getKey commitObj "committer"
  let name ← getKey committer "name"
  return (⟨sha, message, name⟩, tr)

/-- The `for commit in data` loop of `list_commits`, in list order. -/
def commitsLoop (world : World) : List Json → Except Err (List CommitRecord × List String)
  | [] => Except.ok ([], [])
  | c :: rest => do
    let (r, tr1) ← commit_entry world c
    let (tail, tr2) ← commitsLoop world rest
    return (r :: tail, tr1 ++ tr2)

/-- `PullRequestsData.list_commits`: fetch the commit-list endpoint, then for
each entry fetch that entry's own resource URL and build the commit tuple. -/
def list_commits (world : World) (url : String) :
    Except Err (List CommitRecord × List String) := do
  let (data, tr0) ← make_request world url
  let entries ← elems data
  let (commits, tr) ← commitsLoop world entries
  return (commits, tr0 ++ tr)

/-- Body of the `for comment in data` loop of `list_comments` for a single
entry: build the tuple `(comment["user"]["login"], comment["body"])`. -/
def comment_entry (c : Json) : Except Err CommentRecord := do
  let user ← getKey c "user"
  let login ← getKey user "login"
  let body ← getKey c "body"
  return ⟨login, body⟩

/-- The `for comment in data` loop of `list_comments`, in list order. -/
def commentsLoop : List Json → Except Err (List CommentRecord)
  | [] => Except.ok []
  | c :: rest => do
    let r ← comment_entry c
    let tail ← commentsLoop rest
    return r :: tail

/-- `PullRequestsData.list_comments`: a single fetch of the comment-list
endpoint; map each entry to (author login, body) in received order. -/
def list_comments (world : World) (url : String) :
    Except Err (List CommentRecord × List String) := do
  let (data, tr0) ← make_request world url
  let entries ← elems data
  let comments ← commentsLoop entries
  return (comments, tr0)

/-- The reviewer list comprehension of `list_pull_requests`, in list order. -/
def reviewersLoop : List Json → Except Err (List ReviewerRecord)
  | [] => Except.ok []
  | r :: rest => do
    let login ← getKey r "login"
    let id ← getKey r "id"
    let ty ← getKey r "type"
    let tail ← reviewersLoop rest
    return ⟨login, id, ty⟩ :: tail

/-- Body of the `for pull_request in data` loop of `list_pull_requests` for a
single upstream object, with the source's evaluation order: read the two
nested URLs, build the reviewer projection, parse `created_at` with the
fixed format (a failure is `ValueError`), then assemble the 9-tuple, which
fetches commits and then comments. -/
def process_pull_request (world : World) (now : DateTime) (pr : Json) :
    Except Err (PullRequestRecord × List String) := do
  let pull_request_commits_url ← getKey pr "commits_url"
  let commits_url ← asStr pull_request_commits_url
  let pull_request_comments_url ← getKey pr "comments_url"
  let comments_url ← asStr pull_request_comments_url
  let reviewers_json ← getKey pr "requested_reviewers"
  let reviewers_list ← elems reviewers_json
  let reviewers ← reviewersLoop reviewers_list
  let created_at_json ← getKey pr "created_at"
  let created_at_str ← asStr created_at_json
  let created_at ← match parse_datetime created_at_str with
    | some dt => Except.ok dt
    | none => Except.error Err.valueError
  let number ← getKey pr "number"
  let title ← getKey pr "title"
  let user ← getKey pr "user"
  let author ← getKey user "login"
  let created_at_field ← getKey pr "created_at"
  let updated_at ← getKey pr "updated_at"
  let time_open := get_time_open now created_at
  let (commits, tr1) ← list_commits world commits_url
  let (comments, tr2) ← list_comments world comments_url
  return (⟨number, title, author, created_at_field, updated_at, time_open,
           commits, comments, reviewers⟩, tr1 ++ tr2)

/-- The `for pull_request in data` loop of `list_pull_requests`, in list
order. -/
def prLoop (world : World) (now : DateTime) :
    List Json → Except Err (List PullRequestRecord × List String)
  | [] => Except.ok ([], [])
  | pr :: rest => do
    let (r, tr1) ← process_pull_request world now pr
    let (tail, tr2) ← prLoop world now rest
    return (r :: tail, tr1 ++ tr2)

/-- The state of a `PullRequestsData` object: the two attributes set by
`__init__` and read (never written) by the methods. -/
structure PullRequestsData where
  repo_owner : String
  repo_name : String
deriving DecidableEq

/-- The pull-request list endpoint URL built by `list_pull_requests`. -/
def pulls_url (self : PullRequestsData) : String :=
  "https://api.github.com/repos/" ++ self.repo_owner ++ "/" ++ self.repo_name ++ "/pulls"

/-- `PullRequestsData.list_pull_requests`: fetch the pull-request list for
the configured repository and flatten each upstream object into its
9-tuple, resolving commits and comments through their embedded URLs. -/
def list_pull_requests (self : PullRequestsData) (world : World) (now : DateTime) :
    Except Err (List PullRequestRecord × List String) := do
  let (data, tr0) ← make_request world (pulls_url self)
  let prs ← elems data
  let (records, tr) ← prLoop world now prs
  return (records, tr0 ++ tr)

/-- The apostrophe character (Python's preferred string-repr quote). -/
def squote : Char := Char.ofNat 39

/-- Lower-case hexadecimal digit. -/
def hexDigitChar (n : Nat) : Char :=
  if n < 10 then Char.ofNat (48 + n) else Char.ofNat (87 + n)

/-- Escaping of one character inside a Python string repr quoted by
`quote`. -/
def reprCharEscape (quote c : Char) : String :=
  if c = '\\' then "\\\\"
  else if c = quote then String.mk ['\\', quote]
  else if c = '\n' then "\\n"
  else if c = '\r' then "\\r"
  else if c = '\t' then "\\t"
  else if c.toNat < 32 || c.toNat = 127 then
    "\\x" ++ String.mk [hexDigitChar (c.toNat / 16), hexDigitChar (c.toNat % 16)]
  else String.mk [c]

/-- Python `repr` of a string: single-quoted unless the string holds an
apostrophe but no double quote. -/
def reprStr (s : String) : String :=
  let q := if s.contains squote && !s.contains '"' then '"' else squote
  String.mk [q] ++ String.join (s.toList.map (reprCharEscape q)) ++ String.mk [q]

mutual

/-- Python `repr` of a decoded JSON value. -/
def pyRepr : Json → String
  | .null => "None"
  | .bool b => if b then "True" else "False"
  | .str s => reprStr s
  | .num n => toString n
  | .arr xs => "[" ++ pyReprList xs ++ "]"
  | .obj fs => "\x7b" ++ pyReprFields fs ++ "\x7d"

/-- Comma-separated `repr`s of the elements of a Python list. -/
def pyReprList : List Json → String
  | [] => ""
  | [x] => pyRepr x
  | x :: xs => pyRepr x ++ ", " ++ pyReprList xs

/-- Comma-separated `key: value` `repr`s of the items of a Python dict. -/
def pyReprFields : List (String × Json) → String
  | [] => ""
  | [(k, v)] => reprStr k ++ ": " ++ pyRepr v
  | (k, v) :: fs => reprStr k ++ ": " ++ pyRepr v ++ ", " ++ pyReprFields fs

end

/-- Python `str` of a decoded JSON value (as printed or written to a CSV
cell): a string is rendered verbatim, anything else by its repr. -/
def pyStr : Json → String
  | .str s => s
  | j => pyRepr j

/-- Zero-padded two-digit decimal. -/
def pad2 (n : Nat) : String :=
  if n < 10 then "0" ++ toString n else toString n

/-- Python `str` of a `timedelta` holding a whole number of seconds:
normalized to floor days plus a non-negative remainder, printed as
`[D day(s), ]H:MM:SS`. -/
def timedeltaStr (total : Int) : String :=
  let d : Int := Int.fdiv total 86400
  let r : Nat := (total - d * 86400).toNat
  let h := r / 3600
  let m := r / 60 % 60
  let s := r % 60
  let core := toString h ++ ":" ++ pad2 m ++ ":" ++ pad2 s
  if d = 0 then core
  else toString d ++ " day" ++ (if d = 1 || d = -1 then "" else "s") ++ ", " ++ core

/-- Python `str` of one commit 3-tuple. -/
def commitTupleStr (c : CommitRecord) : String :=
  "(" ++ pyRepr c.sha ++ ", " ++ pyRepr c.message ++ ", " ++ pyRepr c.committer_name ++ ")"

/-- Python `str` of one comment 2-tuple. -/
def commentTupleStr (c : CommentRecord) : String :=
  "(" ++ pyRepr c.author_login ++ ", " ++ pyRepr c.body ++ ")"

/-- Python `str` of one reviewer dict (insertion order: login, id, type). -/
def reviewerDictStr (r : ReviewerRecord) : String :=
  "\x7b" ++ reprStr "login" ++ ": " ++ pyRepr r.login ++ ", " ++
    reprStr "id" ++ ": " ++ pyRepr r.id ++ ", " ++
    reprStr "type" ++ ": " ++ pyRepr r.type ++ "\x7d"

/-- Python `str` of a list given the `str`s of its elements. -/
def listCellStr (items : List String) : String :=
  "[" ++ String.intercalate ", " items ++ "]"

/-- The fixed 9-column header passed to the DataFrame in
`save_pull_requests_csv`. -/
def headerRow : List String :=
  ["PR №", "Title", "Author", "Created At", "Updated At",
   "Time open", "Commits", "Comments", "Reviewers"]

/-- The CSV row written for one pull-request record: each tuple component
rendered by Python `str`, so the three nested-sequence fields appear as
their default textual list representation. -/
def recordToRow (r : PullRequestRecord) : List String :=
  [pyStr r.number, pyStr r.title, pyStr r.author, pyStr r.created_at,
   pyStr r.updated_at, timedeltaStr r.time_open,
   listCellStr (r.commits.map commitTupleStr),
   listCellStr (r.comments.map commentTupleStr),
   listCellStr (r.reviewers.map reviewerDictStr)]

/-- Minimal CSV quoting: quote a cell containing the delimiter, the quote
character or a line break, doubling embedded quotes. -/
def csvCell (s : String) : String :=
  if s.contains ',' || s.contains '"' || s.contains '\n' || s.contains '\r' then
    "\"" ++ s.replace "\"" "\"\"" ++ "\""
  else s

/-- One encoded CSV line. -/
def csvRow (cells : List String) : String :=
  String.intercalate "," (cells.map csvCell)

/-- The full CSV text: one terminated line per row. -/
def csvContent (rows : List (List String)) : String :=
  String.join (rows.map (fun r => csvRow r ++ "\n"))

/-- The flat-file sink: a map from file names to contents. -/
abbrev FileSystem := String → Option String

/-- The export file name `"{repo_name}_{repo_owner}.csv"`. -/
def csv_filename (self : PullRequestsData) : String :=
  self.repo_name ++ "_" ++ self.repo_owner ++ ".csv"

/-- `PullRequestsData.save_pull_requests_csv`: aggregate the records, build
the DataFrame rows under the fixed header, and write the CSV text to
`csv_filename`, replacing whatever the file previously held. -/
def save_pull_requests_csv (self : PullRequestsData) (world : World) (now : DateTime)
    (fs : FileSystem) : Except Err FileSystem := do
  let (records, _) ← list_pull_requests self world now
  let content := csvContent (headerRow :: records.map recordToRow)
  return fun p => if p = csv_filename self then some content else fs p

/-- The lines printed for one record by `print_pull_requests` (Python
`print` with two arguments separates them with one extra space). -/
def printRecord (r : PullRequestRecord) : List String :=
  ["Number:  " ++ pyStr r.number,
   "Title:  " ++ pyStr r.title,
   "User:  " ++ pyStr r.author,
   "Created at:  " ++ pyStr r.created_at,
   "Updated at:  " ++ pyStr r.updated_at,
   "Time open:  " ++ timedeltaStr r.time_open,
   "Commits: "]
  ++ (r.commits.map (fun c =>
       ["\tSHA:  " ++ pyStr c.sha,
        "\tMessage:  " ++ pyStr c.message,
        "\tCommitter:  " ++ pyStr c.committer_name])).flatten
  ++ ["Comments: "]
  ++ (r.comments.map (fun c =>
       ["\tAuthor:  " ++ pyStr c.author_login,
        "\tBody:  " ++ pyStr c.body])).flatten
  ++ ["Review requests: "]
  ++ (r.reviewers.map (fun v =>
       ["\tLogin:  " ++ pyStr v.login,
        "\tId:  " ++ pyStr v.id,
        "\tType:  " ++ pyStr v.type])).flatten
  ++ [String.mk (List.replicate 80 '*')]

/-- `PullRequestsData.print_pull_requests`: aggregate the records and emit
the labeled report lines for each, in order. -/
def print_pull_requests (self : PullRequestsData) (world : World) (now : DateTime) :
    Except Err (List String) := do
  let (records, _) ← list_pull_requests self world now
  return (records.map printRecord).flatten

/-- Method view of `make_request` (a `@staticmethod`): the result paired
with the object state after the call; the body contains no attribute
assignment, so the state is returned unchanged. -/
def make_request_method (self : PullRequestsData) (world : World) (url : String) :
    Except Err (Json × List String) × PullRequestsData :=
  (make_request world url, self)

/-- Method view of `get_time_open` (a `@staticmethod`). -/
def get_time_open_method (self : PullRequestsData) (now created_at : DateTime) :
    Int × PullRequestsData :=
  (get_time_open now created_at, self)

/-- Method view of `list_pull_requests`: the body only reads
`self.repo_owner` and `self.repo_name`. -/
def list_pull_requests_method (self : PullRequestsData) (world : World) (now : DateTime) :
    Except Err (List PullRequestRecord × List String) × PullRequestsData :=
  (list_pull_requests self world now, self)

/-- Method view of `list_commits`. -/
def list_commits_method (self : PullRequestsData) (world : World) (url : String) :
    Except Err (List CommitRecord × List String) × PullRequestsData :=
  (list_commits world url, self)

/-- Method view of `list_comments`. -/
def list_comments_method (self : PullRequestsData) (world : World) (url : String) :
    Except Err (List CommentRecord × List String) × PullRequestsData :=
  (list_comments world url, self)

/-- Method view of `save_pull_requests_csv`. -/
def save_pull_requests_csv_method (self : PullRequestsData) (world : World)
    (now : DateTime) (fs : FileSystem) :
    Except Err FileSystem × PullRequestsData :=
  (save_pull_requests_csv self world now fs, self)

/-- Method view of `print_pull_requests`. -/
def print_pull_requests_method (self : PullRequestsData) (world : World) (now : DateTime) :
    Except Err (List String) × PullRequestsData :=
  (print_pull_requests self world now, self)

/-! Concrete test fixtures: a small world mirroring the repository's own
test data, used to instantiate the theorems below. -/

/-- The inner committer object of the fixture commit. -/
def gCommitter : Json := Json.obj [("name", Json.str "committer name")]

/-- The inner `commit` object of the fixture commit resource. -/
def gCommitObj : Json :=
  Json.obj [("message", Json.str "commit message"), ("committer", gCommitter)]

/-- The body of the fixture commit's own resource URL. -/
def gCommitData : Json := Json.obj [("commit", gCommitObj)]

/-- A fixture commit stub as returned by a commit-list endpoint. -/
def gStub : Json :=
  Json.obj [("url", Json.str "commit_url_1"), ("sha", Json.str "commit_sha_1")]

/-- A second fixture commit stub. -/
def gStub2 : Json :=
  Json.obj [("url", Json.str "commit_url_2"), ("sha", Json.str "commit_sha_2")]

/-- The inner `user` object of the fixture comment. -/
def gCommentUser : Json := Json.obj [("login", Json.str "test_user_1")]

/-- A fixture comment object. -/
def gComment : Json :=
  Json.obj [("user", gCommentUser), ("body", Json.str "Test comment 1")]

/-- A fixture requested reviewer. -/
def gReviewer : Json :=
  Json.obj [("login", Json.str "reviewer1"), ("id", Json.num 1), ("type", Json.str "User")]

/-- A fixture upstream pull-request object with every field present. -/
def gPr : Json := Json.obj
  [("number", Json.num 1),
   ("title", Json.str "Title 1"),
   ("user", Json.obj [("login", Json.str "user1")]),
   ("created_at", Json.str "2021-01-01T10:00:00Z"),
   ("updated_at", Json.str "2021-01-01T10:00:00Z"),
   ("commits_url", Json.str "commits_url_1"),
   ("comments_url", Json.str "comments_url_1"),
   ("requested_reviewers", Json.arr [gReviewer])]

/-- Like `gPr` but with a `created_at` that does not carry the fixed
timestamp shape (space separator, offset instead of the trailing `Z`). -/
def gPrBadDate : Json := Json.obj
  [("number", Json.num 1),
   ("title", Json.str "Title 1"),
   ("user", Json.obj [("login", Json.str "user1")]),
   ("created_at", Json.str "2021-01-01 10:00:00+0000"),
   ("updated_at", Json.str "2021-01-01T10:00:00Z"),
   ("commits_url", Json.str "commits_url_1"),
   ("comments_url", Json.str "comments_url_1"),
   ("requested_reviewers", Json.arr [gReviewer])]

/-- The fixture repository object. -/
def gSelf : PullRequestsData := ⟨"startstopstep", "test-repo"⟩

/-- The frozen wall-clock time used by the fixtures (one day after the
fixture pull request was created). -/
def gNow : DateTime := ⟨2021, 1, 2, 10, 0, 0⟩

/-- The fixture endpoint: the configured repository has one pull request
with one commit and one comment; every other URL answers 404. -/
def gWorld : World := fun u =>
  if u = pulls_url gSelf then ⟨200, Json.arr [gPr]⟩
  else if u = "commits_url_1" then ⟨200, Json.arr [gStub]⟩
  else if u = "commit_url_1" then ⟨200, gCommitData⟩
  else if u = "comments_url_1" then ⟨200, Json.arr [gComment]⟩
  else ⟨404, Json.null⟩

/-- The record `list_pull_requests` builds from `gPr` under `gWorld`. -/
def gRec : PullRequestRecord :=
  ⟨Json.num 1, Json.str "Title 1", Json.str "user1",
   Json.str "2021-01-01T10:00:00Z", Json.str "2021-01-01T10:00:00Z",
   86400,
   [⟨Json.str "commit_sha_1", Json.str "commit message", Json.str "committer name"⟩],
   [⟨Json.str "test_user_1", Json.str "Test comment 1"⟩],
   [⟨Json.str "reviewer1", Json.num 1, Json.str "User"⟩]⟩

/-- The trace of URLs `process_pull_request` fetches for `gPr` under
`gWorld`. -/
def gTrace : List String := ["commits_url_1", "commit_url_1", "comments_url_1"]

/-- Like `gWorld` but the commit-list endpoint of the pull request answers
404, so a nested fetch fails. -/
def gWorldBadCommits : World := fun u =>
  if u = pulls_url gSelf then ⟨200, Json.arr [gPr]⟩
  else if u = "comments_url_1" then ⟨200, Json.arr [gComment]⟩
  else ⟨404, Json.null⟩

/-- A world for `list_commits` alone: a commit-list endpoint with two
stubs, both of whose resource URLs answer with the fixture commit data. -/
def gWorldCommits : World := fun u =>
  if u = "pull_request_url" then ⟨200, Json.arr [gStub, gStub2]⟩
  else if u = "commit_url_1" then ⟨200, gCommitData⟩
  else if u = "commit_url_2" then ⟨200, gCommitData⟩
  else ⟨404, Json.null⟩

/-- A world for `list_commits` where the entry's own resource URL answers
404 while the list endpoint succeeds. -/
def gWorldBadEntry : World := fun u =>
  if u = "pull_request_url" then ⟨200, Json.arr [gStub]⟩
  else ⟨404, Json.null⟩

/-- A second fixture comment object. -/
def gComment2 : Json :=
  Json.obj [("user", Json.obj [("login", Json.str "test_user_2")]),
            ("body", Json.str "Test comment 2")]

/-- A world for `list_comments` alone: a comment-list endpoint with two
comments. -/
def gWorldComments : World := fun u =>
  if u = "comments_url" then ⟨200, Json.arr [gComment, gComment2]⟩
  else ⟨404, Json.null⟩

/-- The empty file system used to instantiate the export theorem. -/
def gFs : FileSystem := fun _ => none

/-! Helper lemmas shared by the claim theorems. -/

/-- Reduction of `bind` on a successful `Except` value. -/
@[simp] theorem ok_bind {α β : Type} (a : α) (f : α → Except Err β) :
    (Except.ok a : Except Err α) >>= f = f a := rfl

/-- Reduction of `bind` on a failed `Except` value. -/
@[simp] theorem error_bind {α β : Type} (e : Err) (f : α → Except Err β) :
    (Except.error e : Except Err α) >>= f = Except.error e := rfl

/-- Reduction of `map` on a successful `Except` value. -/
@[simp] theorem map_ok {α β : Type} (a : α) (f : α → β) :
    f <$> (Except.ok a : Except Err α) = Except.ok (f a) := rfl

/-- Reduction of `map` on a failed `Except` value. -/
@[simp] theorem map_error {α β : Type} (e : Err) (f : α → β) :
    f <$> (Except.error e : Except Err α) = Except.error e := rfl

/-- A 200 response makes `make_request` return the body and record one
fetch. -/
theorem make_request_ok {world : World} {url : String}
    (h : (world url).status_code = 200) :
    make_request world url = Except.ok ((world url).body, [url]) := by
  simp [make_request, h]

/-- A non-200 response makes `make_request` raise `ApiError` with its fixed
message. -/
theorem make_request_err {world : World} {url : String}
    (h : (world url).status_code ≠ 200) :
    make_request world url
      = Except.error (Err.apiError "Error receiving a response from the API") := by
  simp [make_request, h]

/-- A present key makes `getKey` succeed. -/
theorem getKey_ok {j : Json} {k : String} {v : Json} (h : j.get k = some v) :
    getKey j k = Except.ok v := by
  simp [getKey, h]

/-- One commit entry whose stub and resource are well-formed produces the
commit tuple and one fetch of the entry's own URL. -/
theorem commit_entry_ok {world : World} {c : Json} {u : String}
    {sha cObj msg cmtr nm : Json}
    (h1 : c.get "url" = some (Json.str u))
    (h2 : (world u).status_code = 200)
    (h3 : c.get "sha" = some sha)
    (h4 : (world u).body.get "commit" = some cObj)
    (h5 : cObj.get "message" = some msg)
    (h6 : cObj.get "committer" = some cmtr)
    (h7 : cmtr.get "name" = some nm) :
    commit_entry world c = Except.ok (⟨sha, msg, nm⟩, [u]) := by
  simp [commit_entry, getKey_ok h1, asStr, make_request_ok h2, getKey_ok h3,
        getKey_ok h4, getKey_ok h5, getKey_ok h6, getKey_ok h7]

/-- The commit loop maps well-behaved entries in order, one fetch each. -/
theorem commitsLoop_map {world : World} {entries : List Json}
    {urlOf : Json → String} {shaOf msgOf nameOf : Json → Json}
    (h : ∀ c ∈ entries,
      commit_entry world c = Except.ok (⟨shaOf c, msgOf c, nameOf c⟩, [urlOf c])) :
    commitsLoop world entries
      = Except.ok (entries.map fun c => (⟨shaOf c, msgOf c, nameOf c⟩ : CommitRecord),
                   entries.map urlOf) := by
  induction entries with
  | nil => simp [commitsLoop]
  | cons c rest ih =>
    have h1 := h c (by simp)
    have h2 := ih (fun x hx => h x (by simp [hx]))
    simp [commitsLoop, h1, h2]

/-- One comment entry with a well-formed user and body produces the
(author, body) tuple. -/
theorem comment_entry_ok {c u : Json} {login body : Json}
    (h1 : c.get "user" = some u)
    (h2 : u.get "login" = some login)
    (h3 : c.get "body" = some body) :
    comment_entry c = Except.ok ⟨login, body⟩ := by
  simp [comment_entry, getKey_ok h1, getKey_ok h2, getKey_ok h3]

/-- The comment loop maps well-behaved entries in order. -/
theorem commentsLoop_map {entries : List Json} {loginOf bodyOf : Json → Json}
    (h : ∀ c ∈ entries, comment_entry c = Except.ok ⟨loginOf c, bodyOf c⟩) :
    commentsLoop entries
      = Except.ok (entries.map fun c => (⟨loginOf c, bodyOf c⟩ : CommentRecord)) := by
  induction entries with
  | nil => simp [commentsLoop]
  | cons c rest ih =>
    have h1 := h c (by simp)
    have h2 := ih (fun x hx => h x (by simp [hx]))
    simp [commentsLoop, h1, h2]

/-- The pull-request loop maps well-behaved upstream objects in order,
concatenating their fetch traces. -/
theorem prLoop_map {world : World} {now : DateTime} {prs : List Json}
    {recOf : Json → PullRequestRecord} {trOf : Json → List String}
    (h : ∀ pr ∈ prs, process_pull_request world now pr = Except.ok (recOf pr, trOf pr)) :
    prLoop world now prs = Except.ok (prs.map recOf, (prs.map trOf).flatten) := by
  induction prs with
  | nil => simp [prLoop]
  | cons pr rest ih =>
    have h1 := h pr (by simp)
    have h2 := ih (fun x hx => h x (by simp [hx]))
    simp [prLoop, h1, h2]

/-- An error while processing one upstream object makes the whole
pull-request loop return that error, however many objects preceded it. -/
theorem prLoop_append_error {world : World} {now : DateTime}
    {pre : List Json} {bad : Json} {rest : List Json} {e : Err}
    (hpre : ∀ pr ∈ pre, ∃ out, process_pull_request world now pr = Except.ok out)
    (hbad : process_pull_request world now bad = Except.error e) :
    prLoop world now (pre ++ bad :: rest) = Except.error e := by
  induction pre with
  | nil => simp [prLoop, hbad]
  | cons pr pre' ih =>
    obtain ⟨out, hout⟩ := hpre pr (by simp)
    have h2 := ih (fun x hx => hpre x (by simp [hx]))
    simp [prLoop, hout, h2]

/-- An error while processing one commit entry makes the whole commit loop
return that error, however many entries preceded it. -/
theorem commitsLoop_append_error {world : World}
    {pre : List Json} {bad : Json} {rest : List Json} {e : Err}
    (hpre : ∀ c ∈ pre, ∃ out, commit_entry world c = Except.ok out)
    (hbad : commit_entry world bad = Except.error e) :
    commitsLoop world (pre ++ bad :: rest) = Except.error e := by
  induction pre with
  | nil => simp [commitsLoop, hbad]
  | cons c pre' ih =>
    obtain ⟨out, hout⟩ := hpre c (by simp)
    have h2 := ih (fun x hx => hpre x (by simp [hx]))
    simp [commitsLoop, hout, h2]

/-- `takeDigits` splits a list into its digit prefix and the rest. -/
theorem takeDigits_decomp (l : List Char) :
    (takeDigits l).1 ++ (takeDigits l).2 = l := by
  induction l with
  | nil => simp [takeDigits]
  | cons c cs ih =>
    by_cases h : isDig c = true
    · simp [takeDigits, h, ih]
    · simp [takeDigits, h]

/-- Value of a one-digit run. -/
theorem natOfDigits_one (a : Char) : natOfDigits [a] = digitVal a := by
  simp [natOfDigits]

/-- Value of a two-digit run. -/
theorem natOfDigits_two (a b : Char) :
    natOfDigits [a, b] = 10 * digitVal a + digitVal b := by
  simp [natOfDigits]

/-- Value of a four-digit run. -/
theorem natOfDigits_four (a b c d : Char) :
    natOfDigits [a, b, c, d]
      = 1000 * digitVal a + 100 * digitVal b + 10 * digitVal c + digitVal d := by
  simp [natOfDigits]
  ring

/-- A digit character's value is at most 9. -/
theorem digitVal_le_nine {c : Char} (h : isDig c = true) : digitVal c ≤ 9 := by
  simp [isDig] at h
  simp [digitVal]
  omega

/-- No month has more than 31 days. -/
theorem daysInMonth_le_31 (y m : Nat) : daysInMonth y m ≤ 31 := by
  unfold daysInMonth
  split_ifs <;> omega

/-- A string of the spec's strict zero-padded format with calendar-valid
fields and a positive year is accepted by the strptime-based parser with
the same six fields. -/
theorem parse_datetime_of_strict {s : String} {f : Nat × Nat × Nat × Nat × Nat × Nat}
    (h : readTimestamp s = some f) (hv : validTimestampFields f = true)
    (hy : 1 ≤ f.1) :
    parse_datetime s
      = some ⟨f.1, f.2.1, f.2.2.1, f.2.2.2.1, f.2.2.2.2.1, f.2.2.2.2.2⟩ := by
  unfold readTimestamp at h
  split at h
  next y1 y2 y3 y4 c1 m1 m2 c2 d1 d2 c3 hh1 hh2 c4 n1 n2 c5 sc1 sc2 c6 heq =>
    split at h
    next hc =>
      simp only [Bool.and_eq_true, decide_eq_true_eq] at hc
      obtain ⟨⟨⟨⟨⟨⟨⟨⟨⟨⟨⟨⟨⟨⟨⟨⟨⟨⟨⟨hy1, hy2⟩, hy3⟩, hy4⟩, hm1⟩, hm2⟩, hd1⟩, hd2⟩,
        hhh1⟩, hhh2⟩, hn1⟩, hn2⟩, hs1⟩, hs2⟩, hc1⟩, hc2⟩, hc3⟩, hc4⟩, hc5⟩, hc6⟩ := hc
      subst hc1 hc2 hc3 hc4 hc5 hc6
      injection h with hf
      subst hf
      simp only [validTimestampFields, Bool.and_eq_true, decide_eq_true_eq] at hv
      obtain ⟨⟨⟨⟨⟨⟨hv1, hv2⟩, hv3⟩, hv4⟩, hv5⟩, hv6⟩, hv7⟩ := hv
      have hb1 := digitVal_le_nine hy1
      have hb2 := digitVal_le_nine hy2
      have hb3 := digitVal_le_nine hy3
      have hb4 := digitVal_le_nine hy4
      have hsr : strptimeRead s
          = some (1000 * digitVal y1 + 100 * digitVal y2 + 10 * digitVal y3 + digitVal y4,
                  10 * digitVal m1 + digitVal m2,
                  10 * digitVal d1 + digitVal d2,
                  10 * digitVal hh1 + digitVal hh2,
                  10 * digitVal n1 + digitVal n2,
                  10 * digitVal sc1 + digitVal sc2) := by
        unfold strptimeRead
        rw [heq]
        simp [takeDigits, hy1, hy2, hy3, hy4, hm1, hm2, hd1, hd2, hhh1, hhh2,
              hn1, hn2, hs1, hs2,
              show isDig '-' = false from rfl,
              show isDig ':' = false from rfl,
              show isDig 'T' = false from rfl,
              show isDig 'Z' = false from rfl,
              yearTokenOk, monthTokenOk, dayTokenOk, hourTokenOk, minuteTokenOk,
              secondTokenOk, natOfDigits_two, natOfDigits_four, hv1, hv2, hv3, hv4,
              hv5, hv6, hv7]
        constructor
        · have h31 := daysInMonth_le_31
            (1000 * digitVal y1 + 100 * digitVal y2 + 10 * digitVal y3 + digitVal y4)
            (10 * digitVal m1 + digitVal m2)
          omega
        · omega
      simp [parse_datetime, hsr, datetimeCtorOk, hv1, hv2, hv3, hv4, hv5, hv6, hv7, hy]
      omega
    next => exact absurd h (by simp)
  next => exact absurd h (by simp)

/-- Every string the parser accepts ends in the trailing literal `Z` (or
its case-insensitive variant `z`): there is no offset handling and nothing
may follow the marker. -/
theorem parse_datetime_trailing_z {s : String} {dt : DateTime}
    (h : parse_datetime s = some dt) :
    ∃ core zc, (zc = 'Z' ∨ zc = 'z') ∧ s.toList = core ++ [zc] := by
  unfold parse_datetime at h
  cases hr : strptimeRead s with
  | none =>
    rw [hr] at h
    exact absurd h (by simp)
  | some f =>
    clear h
    unfold strptimeRead at hr
    split at hr
    next yds r1 e1 =>
      split at hr
      next mds r2 e2 =>
        split at hr
        next dds tc r3 e3 =>
          split at hr
          next htc =>
            split at hr
            next hds r4 e4 =>
              split at hr
              next nds r5 e5 =>
                split at hr
                next sds zc e6 =>
                  split at hr
                  next hcond =>
                    simp only [Bool.and_eq_true, Bool.or_eq_true, decide_eq_true_eq] at hcond
                    refine ⟨yds ++ '-' ::
                        (mds ++ '-' ::
                          (dds ++ tc :: (hds ++ ':' ::
                            (nds ++ ':' :: sds)))), zc,
                      hcond.1.1.1.1.1.1, ?_⟩
                    have d1 := takeDigits_decomp s.toList
                    have d2 := takeDigits_decomp r1
                    have d3 := takeDigits_decomp r2
                    have d4 := takeDigits_decomp r3
                    have d5 := takeDigits_decomp r4
                    have d6 := takeDigits_decomp r5
                    rw [e1] at d1
                    rw [e2] at d2
                    rw [e3] at d3
                    rw [e4] at d4
                    rw [e5] at d5
                    rw [e6] at d6
                    simp only [] at d1 d2 d3 d4 d5 d6
                    rw [← d1, ← d2, ← d3, ← d4, ← d5, ← d6]
                    simp
                  next => exact absurd hr (by simp)
                next => exact absurd hr (by simp)
              next => exact absurd hr (by simp)
            next => exact absurd hr (by simp)
          next => exact absurd hr (by simp)
        next => exact absurd hr (by simp)
      next => exact absurd hr (by simp)
    next => exact absurd hr (by simp)

/-- Processing one upstream object whose scalar fields are all present and
whose `created_at` parses succeeds, producing the 9-tuple: `time_open` is
computed from the parsed `created_at`, and the fetch trace is the commit
trace followed by the comment trace. -/
theorem process_pull_request_ok {world : World} {now : DateTime} {pr : Json}
    {cu qu s : String} {rl : List Json} {rs : List ReviewerRecord} {dt : DateTime}
    {nu ti u lo up : Json} {cs : List CommitRecord} {ms : List CommentRecord}
    {t1 t2 : List String}
    (h1 : pr.get "commits_url" = some (Json.str cu))
    (h2 : pr.get "comments_url" = some (Json.str qu))
    (h3 : pr.get "requested_reviewers" = some (Json.arr rl))
    (h4 : reviewersLoop rl = Except.ok rs)
    (h5 : pr.get "created_at" = some (Json.str s))
    (h6 : parse_datetime s = some dt)
    (h7 : pr.get "number" = some nu)
    (h8 : pr.get "title" = some ti)
    (h9 : pr.get "user" = some u)
    (h10 : u.get "login" = some lo)
    (h11 : pr.get "updated_at" = some up)
    (h12 : list_commits world cu = Except.ok (cs, t1))
    (h13 : list_comments world qu = Except.ok (ms, t2)) :
    process_pull_request world now pr
      = Except.ok (⟨nu, ti, lo, Json.str s, up, get_time_open now dt, cs, ms, rs⟩,
                   t1 ++ t2) := by
  simp [process_pull_request, getKey_ok h1, getKey_ok h2, getKey_ok h3,
        getKey_ok h5, getKey_ok h7, getKey_ok h8, getKey_ok h9, getKey_ok h10,
        getKey_ok h11, asStr, elems, h4, h6, h12, h13]

/-- Processing one upstream object whose `created_at` the parser rejects
raises `ValueError`. -/
theorem process_pull_request_valueError {world : World} {now : DateTime} {pr : Json}
    {cu qu s : String} {rl : List Json} {rs : List ReviewerRecord}
    (h1 : pr.get "commits_url" = some (Json.str cu))
    (h2 : pr.get "comments_url" = some (Json.str qu))
    (h3 : pr.get "requested_reviewers" = some (Json.arr rl))
    (h4 : reviewersLoop rl = Except.ok rs)
    (h5 : pr.get "created_at" = some (Json.str s))
    (h6 : parse_datetime s = none) :
    process_pull_request world now pr = Except.error Err.valueError := by
  simp [process_pull_request, getKey_ok h1, getKey_ok h2, getKey_ok h3,
        getKey_ok h5, asStr, elems, h4, h6]

/-! Claim theorems. -/

/-- Claim C1: for every pull-request list returned by the endpoint,
`list_pull_requests` returns exactly one record per upstream pull-request
object, in the order the endpoint supplied them, each record a fully
populated 9-field tuple (the record type is total in all nine fields);
instantiating the upstream list with `[]` yields the empty sequence. -/
theorem C1_list_pull_requests_one_record_per_upstream
    (self : PullRequestsData) (world : World) (now : DateTime)
    (prs : List Json) (recOf : Json → PullRequestRecord) (trOf : Json → List String)
    (hlist : world (pulls_url self) = ⟨200, Json.arr prs⟩)
    (hproc : ∀ pr ∈ prs,
      process_pull_request world now pr = Except.ok (recOf pr, trOf pr)) :
    list_pull_requests self world now
      = Except.ok (prs.map recOf, pulls_url self :: (prs.map trOf).flatten) := by
  have h0 : make_request world (pulls_url self)
      = Except.ok (Json.arr prs, [pulls_url self]) := by
    rw [make_request_ok (by rw [hlist]), hlist]
  simp [list_pull_requests, h0, elems, prLoop_map hproc]

/-- Witness for C1: the fixture endpoint with one pull request yields
exactly its one record and the expected fetch trace. -/
theorem C1_witness :
    list_pull_requests gSelf gWorld gNow
      = Except.ok ([gRec], pulls_url gSelf :: gTrace) := by
  have h := C1_list_pull_requests_one_record_per_upstream gSelf gWorld gNow
    [gPr] (fun _ => gRec) (fun _ => gTrace) rfl
    (by intro pr hpr
        simp at hpr
        subst hpr
        rfl)
  simpa using h

/-- Claim C2: `make_request` raises the typed `ApiError` with its fixed
message exactly when the response status is not the success code 200; on a
200 status it returns the decoded JSON body of the response (paired with
the one-URL fetch trace). -/
theorem C2_make_request_status_dichotomy (world : World) (url : String) :
    (make_request world url
        = Except.error (Err.apiError "Error receiving a response from the API")
      ↔ (world url).status_code ≠ 200)
    ∧ ((world url).status_code = 200 →
        make_request world url = Except.ok ((world url).body, [url])) := by
  constructor
  · constructor
    · intro h hstatus
      rw [make_request_ok hstatus] at h
      exact Except.noConfusion h
    · exact make_request_err
  · exact make_request_ok

/-- Witness for C2: a 200 fixture URL returns its body, a missing URL
raises the fixed `ApiError`. -/
theorem C2_witness :
    make_request gWorld (pulls_url gSelf) = Except.ok (Json.arr [gPr], [pulls_url gSelf])
    ∧ make_request gWorld "missing_url"
        = Except.error (Err.apiError "Error receiving a response from the API") :=
  ⟨(C2_make_request_status_dichotomy gWorld (pulls_url gSelf)).2 rfl,
   (C2_make_request_status_dichotomy gWorld "missing_url").1.mpr (by decide)⟩

/-- Claim C4: for a commit-list endpoint with `n` entries, `list_commits`
issues exactly `1 + n` fetches — the list URL followed by each entry's own
resource URL in order — and returns the `n` commit records in list order;
with `entries = []` it issues the single list fetch and returns the empty
sequence. -/
theorem C4_list_commits_fetch_count_and_order
    (world : World) (url : String) (entries : List Json)
    (urlOf : Json → String) (shaOf msgOf nameOf : Json → Json)
    (hlist : world url = ⟨200, Json.arr entries⟩)
    (hent : ∀ c ∈ entries,
      c.get "url" = some (Json.str (urlOf c)) ∧
      c.get "sha" = some (shaOf c) ∧
      (world (urlOf c)).status_code = 200 ∧
      ∃ cObj cmtr,
        (world (urlOf c)).body.get "commit" = some cObj ∧
        cObj.get "message" = some (msgOf c) ∧
        cObj.get "committer" = some cmtr ∧
        cmtr.get "name" = some (nameOf c)) :
    list_commits world url
      = Except.ok (entries.map fun c => (⟨shaOf c, msgOf c, nameOf c⟩ : CommitRecord),
                   url :: entries.map urlOf)
    ∧ (url :: entries.map urlOf).length = 1 + entries.length := by
  have hloop : commitsLoop world entries
      = Except.ok (entries.map fun c => (⟨shaOf c, msgOf c, nameOf c⟩ : CommitRecord),
                   entries.map urlOf) :=
    commitsLoop_map (fun c hc => by
      obtain ⟨h1, h3, h2, cObj, cmtr, h4, h5, h6, h7⟩ := hent c hc
      exact commit_entry_ok h1 h2 h3 h4 h5 h6 h7)
  have h0 : make_request world url = Except.ok (Json.arr entries, [url]) := by
    rw [make_request_ok (by rw [hlist]), hlist]
  constructor
  · simp [list_commits, h0, elems, hloop]
  · simp [Nat.add_comm]

/-- Witness for C4: a two-entry fixture commit list yields three fetches in
order and the two commit records. -/
theorem C4_witness :
    list_commits gWorldCommits "pull_request_url"
      = Except.ok
          ([⟨Json.str "commit_sha_1", Json.str "commit message", Json.str "committer name"⟩,
            ⟨Json.str "commit_sha_2", Json.str "commit message", Json.str "committer name"⟩],
           ["pull_request_url", "commit_url_1", "commit_url_2"])
    ∧ (3 : Nat) = 1 + 2 := by
  have h := C4_list_commits_fetch_count_and_order gWorldCommits "pull_request_url"
    [gStub, gStub2]
    (fun c => match c.get "url" with | some (Json.str u) => u | _ => "")
    (fun c => (c.get "sha").getD Json.null)
    (fun _ => Json.str "commit message")
    (fun _ => Json.str "committer name")
    rfl
    (by intro c hc
        simp at hc
        rcases hc with rfl | rfl
        · exact ⟨rfl, rfl, rfl, gCommitObj, gCommitter, rfl, rfl, rfl, rfl⟩
        · exact ⟨rfl, rfl, rfl, gCommitObj, gCommitter, rfl, rfl, rfl, rfl⟩)
  simpa using h

/-- Claim C5: `list_comments` issues a single fetch and maps each returned
entry to its (author login, body) pair in received order; with
`entries = []` the result is the empty sequence. -/
theorem C5_list_comments_single_fetch_in_order
    (world : World) (url : String) (entries : List Json)
    (loginOf bodyOf : Json → Json)
    (hlist : world url = ⟨200, Json.arr entries⟩)
    (hent : ∀ c ∈ entries, ∃ u,
      c.get "user" = some u ∧ u.get "login" = some (loginOf c) ∧
      c.get "body" = some (bodyOf c)) :
    list_comments world url
      = Except.ok (entries.map fun c => (⟨loginOf c, bodyOf c⟩ : CommentRecord), [url]) := by
  have hloop : commentsLoop entries
      = Except.ok (entries.map fun c => (⟨loginOf c, bodyOf c⟩ : CommentRecord)) :=
    commentsLoop_map (fun c hc => by
      obtain ⟨u, h1, h2, h3⟩ := hent c hc
      exact comment_entry_ok h1 h2 h3)
  have h0 : make_request world url = Except.ok (Json.arr entries, [url]) := by
    rw [make_request_ok (by rw [hlist]), hlist]
  simp [list_comments, h0, elems, hloop]

/-- Witness for C5: a two-entry fixture comment list yields the two
(author, body) pairs in order from a single fetch. -/
theorem C5_witness :
    list_comments gWorldComments "comments_url"
      = Except.ok
          ([⟨Json.str "test_user_1", Json.str "Test comment 1"⟩,
            ⟨Json.str "test_user_2", Json.str "Test comment 2"⟩],
           ["comments_url"]) := by
  have h := C5_list_comments_single_fetch_in_order gWorldComments "comments_url"
    [gComment, gComment2]
    (fun c => ((c.get "user").bind fun u => u.get "login").getD Json.null)
    (fun c => (c.get "body").getD Json.null)
    rfl
    (by intro c hc
        simp at hc
        rcases hc with rfl | rfl
        · exact ⟨gCommentUser, rfl, rfl, rfl⟩
        · exact ⟨Json.obj [("login", Json.str "test_user_2")], rfl, rfl, rfl⟩)
  simpa using h

/-- Claim C6: `get_time_open` returns exactly the current wall-clock time
minus `created_at` (as absolute times in seconds); at the frozen time
2022-01-02 12:00:00 with `created_at` 2022-01-01 11:30:00 the duration is
24 hours 30 minutes. -/
theorem C6_get_time_open_exact_difference :
    (∀ now created_at : DateTime,
      get_time_open now created_at + toSeconds created_at = toSeconds now)
    ∧ get_time_open ⟨2022, 1, 2, 12, 0, 0⟩ ⟨2022, 1, 1, 11, 30, 0⟩
        = 24 * 3600 + 30 * 60 := by
  constructor
  · intro now created_at
    simp [get_time_open]
  · decide

/-- Claim C3: a non-success status on any nested fetch propagates uncaught
and aborts the whole aggregation with no partial result: a failed
pull-request-list fetch aborts `list_pull_requests` with the `ApiError`;
an upstream object that fails to process (after any prefix of successful
ones) aborts `list_pull_requests` with that error; a failed commit-list
fetch aborts `list_commits` with the `ApiError`; a commit entry that fails
(after any prefix of successful ones) aborts `list_commits` with that
error; a failed comment-list fetch aborts `list_comments` with the
`ApiError`. -/
theorem C3_fetch_error_aborts_aggregation :
    (∀ (self : PullRequestsData) (world : World) (now : DateTime),
      (world (pulls_url self)).status_code ≠ 200 →
      list_pull_requests self world now
        = Except.error (Err.apiError "Error receiving a response from the API"))
    ∧ (∀ (self : PullRequestsData) (world : World) (now : DateTime)
         (pre : List Json) (bad : Json) (rest : List Json) (e : Err),
      world (pulls_url self) = ⟨200, Json.arr (pre ++ bad :: rest)⟩ →
      (∀ pr ∈ pre, ∃ out, process_pull_request world now pr = Except.ok out) →
      process_pull_request world now bad = Except.error e →
      list_pull_requests self world now = Except.error e)
    ∧ (∀ (world : World) (url : String),
      (world url).status_code ≠ 200 →
      list_commits world url
        = Except.error (Err.apiError "Error receiving a response from the API"))
    ∧ (∀ (world : World) (url : String)
         (pre : List Json) (bad : Json) (rest : List Json) (e : Err),
      world url = ⟨200, Json.arr (pre ++ bad :: rest)⟩ →
      (∀ c ∈ pre, ∃ out, commit_entry world c = Except.ok out) →
      commit_entry world bad = Except.error e →
      list_commits world url = Except.error e)
    ∧ (∀ (world : World) (url : String),
      (world url).status_code ≠ 200 →
      list_comments world url
        = Except.error (Err.apiError "Error receiving a response from the API")) := by
  refine ⟨?_, ?_, ?_, ?_, ?_⟩
  · intro self world now h
    simp [list_pull_requests, make_request_err h]
  · intro self world now pre bad rest e hlist hpre hbad
    have h0 : make_request world (pulls_url self)
        = Except.ok (Json.arr (pre ++ bad :: rest), [pulls_url self]) := by
      rw [make_request_ok (by rw [hlist]), hlist]
    simp [list_pull_requests, h0, elems, prLoop_append_error hpre hbad]
  · intro world url h
    simp [list_commits, make_request_err h]
  · intro world url pre bad rest e hlist hpre hbad
    have h0 : make_request world url
        = Except.ok (Json.arr (pre ++ bad :: rest), [url]) := by
      rw [make_request_ok (by rw [hlist]), hlist]
    simp [list_commits, h0, elems, commitsLoop_append_error hpre hbad]
  · intro world url h
    simp [list_comments, make_request_err h]

/-- Witness for C3: a 404 on the pull-request-list URL aborts
`list_pull_requests`; a 404 on the nested commit-list fetch aborts
`list_pull_requests`; a 404 on the commit-list URL aborts `list_commits`;
a 404 on a commit's own resource URL aborts `list_commits`; a 404 on the
comment-list URL aborts `list_comments` — in each case with the fixed
`ApiError` and no partial result. -/
theorem C3_witness :
    list_pull_requests gSelf gWorldBadEntry gNow
      = Except.error (Err.apiError "Error receiving a response from the API")
    ∧ list_pull_requests gSelf gWorldBadCommits gNow
      = Except.error (Err.apiError "Error receiving a response from the API")
    ∧ list_commits gWorldBadCommits "commits_url_1"
      = Except.error (Err.apiError "Error receiving a response from the API")
    ∧ list_commits gWorldBadEntry "pull_request_url"
      = Except.error (Err.apiError "Error receiving a response from the API")
    ∧ list_comments gWorldBadEntry "missing_url"
      = Except.error (Err.apiError "Error receiving a response from the API") := by
  refine ⟨?_, ?_, ?_, ?_, ?_⟩
  · exact (C3_fetch_error_aborts_aggregation).1 gSelf gWorldBadEntry gNow (by decide)
  · exact (C3_fetch_error_aborts_aggregation).2.1 gSelf gWorldBadCommits gNow
      [] gPr [] _ rfl (by intro pr hpr; simp at hpr) rfl
  · exact (C3_fetch_error_aborts_aggregation).2.2.1 gWorldBadCommits "commits_url_1"
      (by decide)
  · exact (C3_fetch_error_aborts_aggregation).2.2.2.1 gWorldBadEntry "pull_request_url"
      [] gStub [] _ rfl (by intro c hc; simp at hc) rfl
  · exact (C3_fetch_error_aborts_aggregation).2.2.2.2 gWorldBadEntry "missing_url"
      (by decide)

/-- Claim C7: the tabular export writes the file named
`{repo_name}_{repo_owner}.csv`, overwriting whatever that file held: the
resulting file system maps the export name to the CSV text of the fixed
9-column header followed by one row per pull-request record (nested
sequences rendered by their default textual list representation inside
`recordToRow`), and maps every other path as before. -/
theorem C7_csv_export_file_and_schema
    (self : PullRequestsData) (world : World) (now : DateTime) (fs : FileSystem)
    (records : List PullRequestRecord) (tr : List String)
    (h : list_pull_requests self world now = Except.ok (records, tr)) :
    ∃ fs2, save_pull_requests_csv self world now fs = Except.ok fs2
      ∧ fs2 (csv_filename self)
          = some (csvContent (headerRow :: records.map recordToRow))
      ∧ (∀ p, p ≠ csv_filename self → fs2 p = fs p)
      ∧ (headerRow :: records.map recordToRow).length = 1 + records.length := by
  refine ⟨fun p => if p = csv_filename self
      then some (csvContent (headerRow :: records.map recordToRow)) else fs p,
    ?_, ?_, ?_, ?_⟩
  · simp [save_pull_requests_csv, h]
  · simp
  · intro p hp
    simp [hp]
  · simp [Nat.add_comm]

/-- Witness for C7: exporting the fixture aggregation writes the file
`test-repo_startstopstep.csv` with the header row plus one data row. -/
theorem C7_witness :
    ∃ fs2, save_pull_requests_csv gSelf gWorld gNow gFs = Except.ok fs2
      ∧ fs2 (csv_filename gSelf)
          = some (csvContent (headerRow :: [gRec].map recordToRow))
      ∧ (∀ p, p ≠ csv_filename gSelf → fs2 p = gFs p)
      ∧ (headerRow :: [gRec].map recordToRow).length = 1 + [gRec].length := by
  exact C7_csv_export_file_and_schema gSelf gWorld gNow gFs
    [gRec] (pulls_url gSelf :: gTrace) rfl

/-- Counterexample to claim C8 as stated: the string `2021-1-1T0:0:0Z` does
not match the fixed textual format `YYYY-MM-DDTHH:MM:SSZ`, yet the program
parses it (strptime's digit directives accept unpadded 1-2 digit fields);
and the string `0000-01-01T00:00:00Z` matches that format, yet the program
rejects it (the `datetime` constructor requires year at least
`MINYEAR = 1`). So neither direction of the claimed format equivalence
holds of the code. -/
theorem C8_counterexample :
    (matchesTimestampFormat "2021-1-1T0:0:0Z" = false
      ∧ parse_datetime "2021-1-1T0:0:0Z" = some ⟨2021, 1, 1, 0, 0, 0⟩)
    ∧ (matchesTimestampFormat "0000-01-01T00:00:00Z" = true
      ∧ parse_datetime "0000-01-01T00:00:00Z" = none) := by
  exact ⟨⟨rfl, by decide⟩, ⟨rfl, by decide⟩⟩

/-- Claim C8 (amended): `created_at` is parsed with `strptime` under the
single fixed format `%Y-%m-%dT%H:%M:%SZ`, which demands the literal
separators and a trailing literal `Z` (matched case-insensitively, since
strptime compiles its pattern with IGNORECASE) with no offset handling,
accepts unpadded 1-2 digit month/day/hour/minute/second fields exactly as
CPython's strptime does, and requires a constructible datetime (year at
least 1, calendar-valid day, second at most 59): every strictly zero-padded
`YYYY-MM-DDTHH:MM:SSZ` string with calendar-valid fields and positive year
parses to its six fields; every accepted string ends in the trailing
`Z`/`z` marker; a `created_at` the parser rejects raises `ValueError`, so
the object's processing (and with it the whole aggregation) fails; and an
accepted `created_at` feeds the parsed value through `get_time_open` into
the record's `time_open` field. -/
theorem C8_created_at_fixed_format :
    (∀ (s : String) (f : Nat × Nat × Nat × Nat × Nat × Nat),
        readTimestamp s = some f → validTimestampFields f = true → 1 ≤ f.1 →
        parse_datetime s
          = some ⟨f.1, f.2.1, f.2.2.1, f.2.2.2.1, f.2.2.2.2.1, f.2.2.2.2.2⟩)
    ∧ (∀ (s : String) (dt : DateTime), parse_datetime s = some dt →
        ∃ core zc, (zc = 'Z' ∨ zc = 'z') ∧ s.toList = core ++ [zc])
    ∧ (∀ (world : World) (now : DateTime) (pr : Json) (cu qu s : String)
         (rl : List Json) (rs : List ReviewerRecord),
        pr.get "commits_url" = some (Json.str cu) →
        pr.get "comments_url" = some (Json.str qu) →
        pr.get "requested_reviewers" = some (Json.arr rl) →
        reviewersLoop rl = Except.ok rs →
        pr.get "created_at" = some (Json.str s) →
        parse_datetime s = none →
        process_pull_request world now pr = Except.error Err.valueError)
    ∧ (∀ (world : World) (now : DateTime) (pr : Json) (cu qu s : String)
         (rl : List Json) (rs : List ReviewerRecord) (dt : DateTime)
         (nu ti u lo up : Json) (cs : List CommitRecord) (ms : List CommentRecord)
         (t1 t2 : List String),
        pr.get "commits_url" = some (Json.str cu) →
        pr.get "comments_url" = some (Json.str qu) →
        pr.get "requested_reviewers" = some (Json.arr rl) →
        reviewersLoop rl = Except.ok rs →
        pr.get "created_at" = some (Json.str s) →
        parse_datetime s = some dt →
        pr.get "number" = some nu →
        pr.get "title" = some ti →
        pr.get "user" = some u →
        u.get "login" = some lo →
        pr.get "updated_at" = some up →
        list_commits world cu = Except.ok (cs, t1) →
        list_comments world qu = Except.ok (ms, t2) →
        process_pull_request world now pr
          = Except.ok (⟨nu, ti, lo, Json.str s, up, get_time_open now dt, cs, ms, rs⟩,
                       t1 ++ t2)) := by
  refine ⟨?_, ?_, ?_, ?_⟩
  · intro s f h hv hy
    exact parse_datetime_of_strict h hv hy
  · intro s dt h
    exact parse_datetime_trailing_z h
  · intro world now pr cu qu s rl rs h1 h2 h3 h4 h5 h6
    exact process_pull_request_valueError h1 h2 h3 h4 h5 h6
  · intro world now pr cu qu s rl rs dt nu ti u lo up cs ms t1 t2
      h1 h2 h3 h4 h5 h6 h7 h8 h9 h10 h11 h12 h13
    exact process_pull_request_ok h1 h2 h3 h4 h5 h6 h7 h8 h9 h10 h11 h12 h13

/-- Witness for C8: the strictly formatted fixture timestamp parses to its
six fields; the parsed fixture string ends in the trailing `Z`; a
`created_at` with a space and a numeric offset instead of the trailing `Z`
makes processing raise `ValueError`; the fixture pull request parses and
yields its record with `time_open` computed from the parsed timestamp. -/
theorem C8_witness :
    parse_datetime "2021-01-01T10:00:00Z" = some ⟨2021, 1, 1, 10, 0, 0⟩
    ∧ (∃ core zc, (zc = 'Z' ∨ zc = 'z')
        ∧ "2021-01-01T10:00:00Z".toList = core ++ [zc])
    ∧ process_pull_request gWorld gNow gPrBadDate = Except.error Err.valueError
    ∧ process_pull_request gWorld gNow gPr = Except.ok (gRec, gTrace) := by
  refine ⟨?_, ?_, ?_, ?_⟩
  · exact C8_created_at_fixed_format.1 "2021-01-01T10:00:00Z"
      (2021, 1, 1, 10, 0, 0) rfl rfl (by decide)
  · exact C8_created_at_fixed_format.2.1 "2021-01-01T10:00:00Z"
      ⟨2021, 1, 1, 10, 0, 0⟩ (by decide)
  · exact C8_created_at_fixed_format.2.2.1 gWorld gNow gPrBadDate
      "commits_url_1" "comments_url_1" "2021-01-01 10:00:00+0000"
      [gReviewer] [⟨Json.str "reviewer1", Json.num 1, Json.str "User"⟩]
      rfl rfl rfl rfl rfl (by decide)
  · exact C8_created_at_fixed_format.2.2.2 gWorld gNow gPr
      "commits_url_1" "comments_url_1" "2021-01-01T10:00:00Z"
      [gReviewer] [⟨Json.str "reviewer1", Json.num 1, Json.str "User"⟩]
      ⟨2021, 1, 1, 10, 0, 0⟩
      (Json.num 1) (Json.str "Title 1") (Json.obj [("login", Json.str "user1")])
      (Json.str "user1") (Json.str "2021-01-01T10:00:00Z")
      [⟨Json.str "commit_sha_1", Json.str "commit message", Json.str "committer name"⟩]
      [⟨Json.str "test_user_1", Json.str "Test comment 1"⟩]
      ["commits_url_1", "commit_url_1"] ["comments_url_1"]
      rfl rfl rfl rfl rfl rfl rfl rfl rfl rfl rfl rfl rfl

/-- Claim C9: every operation leaves the constructed object state
unchanged: the `repo_owner` and `repo_name` attributes set at construction
are never modified by any method, so repeated invocations observe the same
repository identifier. -/
theorem C9_operations_preserve_repository_identifier
    (self : PullRequestsData) (world : World) (now created_at : DateTime)
    (url : String) (fs : FileSystem) :
    (make_request_method self world url).2 = self
    ∧ (get_time_open_method self now created_at).2 = self
    ∧ (list_pull_requests_method self world now).2 = self
    ∧ (list_commits_method self world url).2 = self
    ∧ (list_comments_method self world url).2 = self
    ∧ (save_pull_requests_csv_method self world now fs).2 = self
    ∧ (print_pull_requests_method self world now).2 = self
    ∧ (list_pull_requests_method self world now).2.repo_owner = self.repo_owner
    ∧ (list_pull_requests_method self world now).2.repo_name = self.repo_name :=
  ⟨rfl, rfl, rfl, rfl, rfl, rfl, rfl, rfl, rfl⟩

/-- Claim C10: the aggregation is deterministic modulo its external inputs:
two runs over the same URL-to-response mapping and the same frozen
wall-clock time return identical record sequences, for
`list_pull_requests`, `list_commits` and `list_comments` alike. -/
theorem C10_deterministic_modulo_external_inputs
    (self : PullRequestsData) (world1 world2 : World) (now1 now2 : DateTime)
    (url : String) (hw : world1 = world2) (hn : now1 = now2) :
    list_pull_requests self world1 now1 = list_pull_requests self world2 now2
    ∧ list_commits world1 url = list_commits world2 url
    ∧ list_comments world1 url = list_comments world2 url := by
  subst hw
  subst hn
  exact ⟨rfl, rfl, rfl⟩

/-- Witness for C10 at the fixture world and clock. -/
theorem C10_witness :
    list_pull_requests gSelf gWorld gNow = list_pull_requests gSelf gWorld gNow
    ∧ list_commits gWorld "commits_url_1" = list_commits gWorld "commits_url_1"
    ∧ list_comments gWorld "commits_url_1" = list_comments gWorld "commits_url_1" :=
  C10_deterministic_modulo_external_inputs gSelf gWorld gWorld gNow gNow
    "commits_url_1" rfl rfl

end Script
